import Mathlib

/-!
Verification of the Glances fork's network and NVMe-sensor plugins.

The Python sources are embedded shallowly:
  - Python exceptions become an explicit error type threaded through
    `Except`; a function that the source lets raise is modelled as
    returning `Except PyExn _`.
  - Python `str.split()`, `int(...)`, substring membership, negative
    indexing, slicing and `str.format` width padding are modelled by the
    `py...` helpers below, faithful to CPython semantics on the inputs the
    plugins feed them (`pySplitlines` may add an empty trailing line; empty
    lines match no labelled pattern, so parsing is unaffected).
  - Framework code that is not part of this repository's source tree
    (GlancesPluginModel.get_alert, _manage_rate / compute_rate, auto_unit)
    is modelled from the specification and marked as such in its doc
    comment.
-/

/-- Python exception kinds that the embedded code can raise. -/
inductive PyExn where
  | calledProcessError
  | fileNotFoundError
  | valueError
  | indexError
  | keyError
  | unboundLocalError
deriving DecidableEq, Repr

/-- Tail-recursive worker for `pySplit`: accumulates the current token
(reversed) and the finished tokens (reversed). -/
def splitWsAux : List Char → List Char → List String → List String
  | [], acc, out =>
    if acc.isEmpty then out.reverse else (String.mk acc.reverse :: out).reverse
  | c :: rest, acc, out =>
    if c.isWhitespace then
      if acc.isEmpty then splitWsAux rest [] out
      else splitWsAux rest [] (String.mk acc.reverse :: out)
    else splitWsAux rest (c :: acc) out

/-- Python `s.split()` with no separator: split on runs of whitespace,
discarding empty tokens. -/
def pySplit (s : String) : List String :=
  splitWsAux s.toList [] []

/-- Worker for `pySplitlines`: split a character list at newline characters. -/
def splitNlAux : List Char → List Char → List String → List String
  | [], acc, out => (String.mk acc.reverse :: out).reverse
  | c :: rest, acc, out =>
    if c = '\n' then splitNlAux rest [] (String.mk acc.reverse :: out)
    else splitNlAux rest (c :: acc) out

/-- Python `s.splitlines()` (modulo a possible extra empty trailing line,
which matches no labelled pattern and so never changes a parse). -/
def pySplitlines (s : String) : List String :=
  splitNlAux s.toList [] []

/-- Worker for `pyIn`: does `pat` occur as a contiguous sublist? -/
def containsAux (pat : List Char) : List Char → Bool
  | [] => pat.isEmpty
  | c :: rest => pat.isPrefixOf (c :: rest) || containsAux pat rest

/-- Python `pat in line` substring membership test. -/
def pyIn (pat line : String) : Bool :=
  containsAux pat.toList line.toList

/-- Strip leading and trailing whitespace from a character list. -/
def dropWsBoth (l : List Char) : List Char :=
  ((l.dropWhile Char.isWhitespace).reverse.dropWhile Char.isWhitespace).reverse

/-- Python `int(s)`: strip surrounding whitespace, allow one optional sign,
then require at least one decimal digit; anything else raises ValueError. -/
def pyInt (s : String) : Except PyExn Int :=
  let t := dropWsBoth s.toList
  let sd : Int × List Char :=
    match t with
    | '-' :: rest => (-1, rest)
    | '+' :: rest => (1, rest)
    | _ => (1, t)
  if sd.2.isEmpty || !(sd.2.all (fun c => c.isDigit)) then .error .valueError
  else .ok (sd.1 * (sd.2.foldl (fun acc c => 10 * acc + (c.toNat - 48)) 0 : Nat))

/-- Python `xs[-2]` on a list: second element from the end, IndexError when
fewer than two elements exist. -/
def pyIndexNeg2 (xs : List String) : Except PyExn String :=
  match xs.reverse with
  | _ :: b :: _ => .ok b
  | _ => .error .indexError

/-- Python `xs[-1]` on a list: last element, IndexError when empty. -/
def pyIndexNeg1 (xs : List String) : Except PyExn String :=
  match xs.reverse with
  | a :: _ => .ok a
  | _ => .error .indexError

/-- Python `s.replace(old, new)` specialised to removing every percent sign,
as the source does on the token of the Percentage Used line. -/
def stripPercent (s : String) : String :=
  String.mk (s.toList.filter (fun c => c ≠ '%'))

/-- Python dict access `d[k]` on an optional field: KeyError when absent. -/
def pyGet (o : Option α) (_k : String) : Except PyExn α :=
  match o with
  | some v => .ok v
  | none => .error .keyError

/-- Python truthiness of the optional integer `max_width`: `None` and `0`
are falsy. -/
def pyTruthy : Option Int → Bool
  | none => false
  | some w => w != 0

deriving instance DecidableEq for Except

/- ------------------------------------------------------------------ -/
/- NVMe sensor plugin: glances/plugins/sensors/sensor/glances_nvme.py -/
/- ------------------------------------------------------------------ -/

/-- The dict built by `GlancesGrabNVMe.parse_nvme_output`; its only possible
keys are the three below, so the dict is embedded as three optional fields
(`none` = key absent). -/
structure NvmeData where
  temperature : Option Int
  power_cycles : Option Int
  percentage_used : Option Int
deriving DecidableEq, Repr

/-- The empty dict `nvme_data = {}`. -/
def emptyNvme : NvmeData :=
  { temperature := none, power_cycles := none, percentage_used := none }

/-- Python truthiness of the dict: empty dicts are falsy. -/
def NvmeData.isEmptyDict (d : NvmeData) : Bool :=
  d.temperature.isNone && d.power_cycles.isNone && d.percentage_used.isNone

/-- One iteration of the line loop in `parse_nvme_output`: the three
`if/elif` labelled-line matches, each doing `int(line.split()[-2])` or
`int(line.split()[-1])` (with percent signs removed for the last one);
`int` on a non-numeric token raises ValueError, which the source does not
catch here. -/
def parseNvmeLine (d : NvmeData) (line : String) : Except PyExn NvmeData :=
  if pyIn "Temperature:" line then
    match pyIndexNeg2 (pySplit line) with
    | .error e => .error e
    | .ok tok =>
      match pyInt tok with
      | .error e => .error e
      | .ok v => .ok { d with temperature := some v }
  else if pyIn "Power Cycles:" line then
    match pyIndexNeg1 (pySplit line) with
    | .error e => .error e
    | .ok tok =>
      match pyInt tok with
      | .error e => .error e
      | .ok v => .ok { d with power_cycles := some v }
  else if pyIn "Percentage Used:" line then
    match pyIndexNeg1 (pySplit line) with
    | .error e => .error e
    | .ok tok =>
      match pyInt (stripPercent tok) with
      | .error e => .error e
      | .ok v => .ok { d with percentage_used := some v }
  else .ok d

/-- `GlancesGrabNVMe.parse_nvme_output`: fold the line parser over
`output.splitlines()`. -/
def parse_nvme_output (output : String) : Except PyExn NvmeData :=
  (pySplitlines output).foldlM parseNvmeLine emptyNvme

/-- Outcome of the `subprocess.check_output` call on the smartctl binary:
the binary may be missing (FileNotFoundError), exit non-zero
(CalledProcessError), or produce output text. -/
inductive ToolResult where
  | notInstalled
  | nonZeroExit (code : Int)
  | ok (output : String)

/-- `GlancesGrabNVMe.get`: the `try` block only catches
`subprocess.CalledProcessError` (returning the still-empty dict); a missing
binary raises FileNotFoundError and parse errors raise ValueError, and
neither is caught, so both propagate to the caller. -/
def GlancesGrabNVMe.get : ToolResult → Except PyExn NvmeData
  | .notInstalled => .error .fileNotFoundError
  | .nonZeroExit _ => .ok emptyNvme
  | .ok output => parse_nvme_output output

/-- One entry of the stats list of the NVMe plugin: a dict with the keys
label, value and unit. -/
structure SensorStat where
  label : String
  value : Int
  unit : String
deriving DecidableEq, Repr

/-- `PluginModel.update` of the NVMe plugin: start from the init value `[]`,
and append the temperature row when the fetched dict is truthy. A truthy
dict without the `temperature` key raises KeyError (uncaught in source). -/
def nvme_update (nvme_data : NvmeData) : Except PyExn (List SensorStat) :=
  if nvme_data.isEmptyDict then .ok []
  else
    match nvme_data.temperature with
    | some t => .ok [{ label := "NVMe Temp", value := t, unit := "C" }]
    | none => .error .keyError

/-- One cell returned by `curse_add_line` / `curse_new_line`: the text, the
optional decoration, the optional `width=` argument and the optional
`align=` argument. -/
inductive Cell where
  | newline
  | line (txt : String) (decoration : Option String) (width : Option Int)
      (align : Option String)
deriving DecidableEq, Repr

/-- The per-stat loop of the NVMe plugin's `msg_curse`: each row references
the local variable `label_max_width`, which is only ever assigned inside
`if max_width:`; referencing it unassigned raises UnboundLocalError. -/
def nvmeRows (label_max_width : Option Int) : List SensorStat → Except PyExn (List Cell)
  | [] => .ok []
  | s :: rest =>
    match label_max_width with
    | none => .error .unboundLocalError
    | some w =>
      match nvmeRows label_max_width rest with
      | .error e => .error e
      | .ok tail =>
        .ok (Cell.newline
          :: Cell.line s.label none (some w) none
          :: Cell.line (toString s.value ++ " " ++ s.unit) none none (some "right")
          :: tail)

/-- `PluginModel.msg_curse` of the NVMe plugin: early return for empty stats
or a disabled plugin; `label_max_width = max_width - 14` assigned only when
`max_width` is truthy; then the title line and one row per stat. -/
def nvme_msg_curse (stats : List SensorStat) (disabled : Bool)
    (max_width : Option Int) : Except PyExn (List Cell) :=
  if stats.isEmpty || disabled then .ok []
  else
    let label_max_width : Option Int :=
      if pyTruthy max_width then max_width.map (fun w => w - 14) else none
    match nvmeRows label_max_width stats with
    | .error e => .error e
    | .ok rows => .ok (Cell.line "NVMe Stats" (some "TITLE") none none :: rows)

/- ---------------------------------------------------------- -/
/- Network plugin: glances/plugins/network/(init module)      -/
/- ---------------------------------------------------------- -/

/-- One entry of `fields_description` in the network plugin: the field name
and its `rate` flag (`rate: True` means a `_rate_per_sec` sibling field is
derived by the rate engine). -/
structure FieldDesc where
  name : String
  rate : Bool
deriving DecidableEq, Repr

/-- `fields_description` of the network plugin, names and rate flags as in
the source dict (fields without an explicit `rate` key default to no rate). -/
def fields_description : List FieldDesc :=
  [ { name := "interface_name", rate := false },
    { name := "alias", rate := false },
    { name := "bytes_recv", rate := true },
    { name := "bytes_sent", rate := true },
    { name := "bytes_all", rate := true },
    { name := "speed", rate := false },
    { name := "is_up", rate := false } ]

/-- The `_rate_per_sec` sibling field names derived for every field marked
`rate: True` in `fields_description`. -/
def rate_per_sec_fields : List String :=
  (fields_description.filter (fun f => f.rate)).map (fun f => f.name ++ "_rate_per_sec")

/-- Sample of the spec's data model: a source id, a counters mapping and a
monotonic timestamp (seconds, exact rational to model the arithmetic). -/
structure Sample where
  source_id : String
  counters : List (String × Int)
  timestamp : ℚ

/-- Counter lookup in a Sample's counters mapping. -/
def Sample.counter (s : Sample) (name : String) : Option Int :=
  (s.counters.find? (fun p => p.1 == name)).map Prod.snd

/-- Modelled from the spec: `compute_rate` of the Rate Engine
(`GlancesPluginModel._manage_rate`, framework code not under the source
tree). Returns no rate when the previous counter is absent, elapsed time is
not positive, or the counter decreased; otherwise exactly
(current − previous) / elapsed. -/
def compute_rate (previous current : Sample) (counter : String) : Option ℚ :=
  let elapsed : ℚ := current.timestamp - previous.timestamp
  match previous.counter counter, current.counter counter with
  | some p, some c =>
    if elapsed ≤ 0 ∨ c < p then none
    else some (((c - p : Int) : ℚ) / elapsed)
  | _, _ => none

/-- Severity levels used by the alert decoration. -/
inductive Severity where
  | default
  | careful
  | warning
  | critical
deriving DecidableEq, Repr

/-- Modelled from the spec: the explicit-threshold comparison chain of the
Threshold Classifier (`GlancesPluginModel.get_alert`, framework code not
under the source tree): value ≥ critical_bound → critical; else ≥
warning_bound → warning; else ≥ careful_bound → careful; else default
(inclusive lower bounds). -/
def classify (value careful_bound warning_bound critical_bound : ℚ) : Severity :=
  if critical_bound ≤ value then .critical
  else if warning_bound ≤ value then .warning
  else if careful_bound ≤ value then .careful
  else .default

/-- Modelled from the spec: the percentage-of-maximum fallback of the
Threshold Classifier (`get_alert` with a `maximum` argument, framework code
not under the source tree), with the default breakpoints careful ≥ 50%,
warning ≥ 70%, critical ≥ 90% of the maximum. -/
def get_alert_maximum (current maximum : ℚ) : Severity :=
  classify (current / maximum * 100) 50 70 90

/-- The speed conversion of `update_local`: the stat entry for speed is
multiplied by 1048576 (source comment: Convert speed from Mbps to bps). -/
def convert_speed (speed : Int) : Int :=
  speed * 1048576

/-- The fallback dispatch of the network plugin's `update_views` (one of the
two symmetric rx/tx branches): when the explicit per-interface threshold
lookup yielded DEFAULT and the stat has a nonzero `speed` field, re-classify
the bit rate against `maximum` = link speed; otherwise keep the explicit
alert. `speed = none` models a stat without the `speed` key. -/
def decorate_bitrate (explicit_alert : Severity) (speed : Option Int)
    (bps : Int) : Severity :=
  match speed with
  | some s =>
    if explicit_alert = .default ∧ s ≠ 0 then get_alert_maximum (bps : ℚ) (s : ℚ)
    else explicit_alert
  | none => explicit_alert

/-- One interface's stat dict as it appears in the network plugin's stats
list at display time. Optional fields model keys that `msg_curse` guards
with `in` checks (or that the `_manage_rate` framework decorator adds only
from the second tick on). -/
structure NetStat where
  interface_name : String
  «alias» : Option String
  mac_address : Option String
  is_up : Option Bool
  bytes_recv : Option Int
  bytes_sent : Int
  bytes_all : Int
  speed : Option Int
  bytes_recv_rate_per_sec : Option ℚ
  bytes_sent_rate_per_sec : Option ℚ
  bytes_all_rate_per_sec : Option ℚ
deriving DecidableEq, Repr

/-- Per-interface raw byte counters from `psutil.net_io_counters(pernic=True)`
(the two fields `filter_stats` keeps for this plugin). -/
structure RawNetCounters where
  bytes_sent : Int
  bytes_recv : Int
deriving DecidableEq, Repr

/-- Per-interface data from `psutil.net_if_stats()` (the fields
`filter_stats` keeps for this plugin). -/
structure RawNetStatus where
  isup : Bool
  speed : Int
deriving DecidableEq, Repr

/-- One interface as produced by psutil plus the MAC lookup:
`status = none` models a name missing from `net_if_stats()`;
`mac = none` models `get_mac_address` returning None. -/
structure RawInterface where
  name : String
  io : RawNetCounters
  status : Option RawNetStatus
  mac : Option String
deriving Repr

/-- The stat dict built by one iteration of the `update_local` loop for an
interface that is displayed and present in `net_status`: counters, key,
MAC address (falsy values replaced by the string Unknown), alias,
`bytes_all = bytes_sent + bytes_recv`, and the speed scaled by
`convert_speed`. Rate fields are added later by the framework decorator,
so they are absent here. -/
def buildStat (has_alias : String → Option String) (r : RawInterface)
    (st : RawNetStatus) : NetStat :=
  { interface_name := r.name
    «alias» := has_alias r.name
    mac_address := some (match r.mac with
      | some m => if m ≠ "" then m else "Unknown"
      | none => "Unknown")
    is_up := some st.isup
    bytes_recv := some r.io.bytes_recv
    bytes_sent := r.io.bytes_sent
    bytes_all := r.io.bytes_sent + r.io.bytes_recv
    speed := some (convert_speed st.speed)
    bytes_recv_rate_per_sec := none
    bytes_sent_rate_per_sec := none
    bytes_all_rate_per_sec := none }

/-- `PluginModel.update_local` of the network plugin: loop over the
psutil interfaces, skipping any that `is_display` rejects or that are
missing from `net_if_stats()`, and append the built stat dict. -/
def update_local (is_display : String → Bool) (has_alias : String → Option String) :
    List RawInterface → List NetStat
  | [] => []
  | r :: rest =>
    let tail := update_local is_display has_alias rest
    if is_display r.name then
      match r.status with
      | some st => buildStat has_alias r st :: tail
      | none => tail
    else tail

/-- The command-line arguments `msg_curse` reads. -/
structure NetArgs where
  network_cumul : Bool
  network_sum : Bool
  byte : Bool
deriving DecidableEq, Repr

/-- The per-plugin configuration flags set in the network plugin's
constructor. `msg_curse` has access to all of them through `self`. -/
structure NetConfig where
  hide_zero : Bool
  hide_no_up : Bool
  hide_no_ip : Bool
deriving DecidableEq, Repr

/-- `self.hide_zero_fields` of the network plugin. -/
def hide_zero_fields : List String :=
  ["bytes_recv_rate_per_sec", "bytes_sent_rate_per_sec"]

/-- Python slice `s[a:]` with a possibly negative start index. -/
def pySliceFrom (s : String) (a : Int) : String :=
  let n : Int := (s.toList.length : Int)
  let start : Int := if a < 0 then max (n + a) 0 else min a n
  String.mk (s.toList.drop start.toNat)

/-- The interface-name truncation in `msg_curse`:
`if len(if_name) > name_max_width: if_name = chr(95) + if_name[-name_max_width + 1:]`
(an underscore followed by the slice). -/
def truncIfName (if_name : String) (nmw : Int) : String :=
  if nmw < (if_name.toList.length : Int) then "_" ++ pySliceFrom if_name (1 - nmw)
  else if_name

/-- The last `m` characters of a string (all of it when `m` exceeds its
length). -/
def lastChars (s : String) (m : Nat) : String :=
  String.mk (s.toList.drop (s.toList.length - m))

/-- Python format of a string with a substituted width field: left-justify
`s` in `width` columns. A non-positive substituted width raises ValueError
(a negative width is parsed as a sign, width zero as the zero-fill flag,
and both are rejected for strings). -/
def pyFormatWidth (s : String) (width : Int) : Except PyExn String :=
  if width ≤ 0 then .error .valueError
  else .ok (s ++ String.mk (List.replicate (width.toNat - s.toList.length) ' '))

/-- Python format of a string with a constant right-align width spec. -/
def pyFormatRight (s : String) (width : Nat) : String :=
  String.mk (List.replicate (width - s.toList.length) ' ') ++ s

/-- Python `int(x)` on an exact rational: truncation toward zero. -/
def pyIntOfRat (q : ℚ) : Int :=
  if 0 ≤ q then ⌊q⌋ else ⌈q⌉

/-- Modelled from the spec: the unit auto-scaling
(`GlancesPluginModel.auto_unit`, framework code not under the source tree):
pick the largest base-1024 prefix leaving the scaled magnitude in
[1, 1024); the model keeps integer precision for the scaled value. -/
def auto_unit (n : Int) : String :=
  if n < 1024 then toString n
  else if n < 1024 * 1024 then toString (n / 1024) ++ "K"
  else if n < 1024 * 1024 * 1024 then toString (n / (1024 * 1024)) ++ "M"
  else if n < 1024 * 1024 * 1024 * 1024 then toString (n / (1024 * 1024 * 1024)) ++ "G"
  else toString (n / (1024 * 1024 * 1024 * 1024)) ++ "T"

/-- The display name before truncation: when the stat has no alias, the
interface name up to the first colon (split on colon, first piece);
otherwise the alias. -/
def ifDisplayName (i : NetStat) : String :=
  match i.«alias» with
  | none => String.mk (i.interface_name.toList.takeWhile (fun c => c ≠ ':'))
  | some a => a

/-- The value cells appended for one interface after the rx/tx/ax strings
are computed: a single 14-wide sum cell under `--network-sum`, otherwise
7-wide rx and tx cells decorated with the views decorations for
`bytes_recv` and `bytes_sent`. -/
def mkValueLines (args : NetArgs) (vd : String → String → Option String)
    (i : NetStat) (rx tx ax : String) : List Cell :=
  if args.network_sum then
    [Cell.line (pyFormatRight ax 14) none none none]
  else
    [Cell.line (pyFormatRight rx 7) (vd i.interface_name "bytes_recv") none none,
     Cell.line (pyFormatRight tx 7) (vd i.interface_name "bytes_sent") none none]

/-- The Rx/Tx value computation of the `msg_curse` loop: cumulative bytes
when `--network-cumul` and the `bytes_recv` key exists, else the rate
fields when present (unguarded access to the sent/all rates, as in the
source), else the `continue` that emits no value cells. `to_bit` and the
unit suffix come from `--byte`. -/
def netValueCells (args : NetArgs) (vd : String → String → Option String)
    (i : NetStat) : Except PyExn (List Cell) :=
  let to_bit : Int := if args.byte then 1 else 8
  let unit : String := if args.byte then "" else "b"
  if args.network_cumul && i.bytes_recv.isSome then
    match pyGet i.bytes_recv "bytes_recv" with
    | .error e => .error e
    | .ok br =>
      .ok (mkValueLines args vd i
        (auto_unit (br * to_bit) ++ unit)
        (auto_unit (i.bytes_sent * to_bit) ++ unit)
        (auto_unit (i.bytes_all * to_bit) ++ unit))
  else if i.bytes_recv_rate_per_sec.isSome then
    match pyGet i.bytes_recv_rate_per_sec "bytes_recv_rate_per_sec" with
    | .error e => .error e
    | .ok rr =>
      match pyGet i.bytes_sent_rate_per_sec "bytes_sent_rate_per_sec" with
      | .error e => .error e
      | .ok sr =>
        match pyGet i.bytes_all_rate_per_sec "bytes_all_rate_per_sec" with
        | .error e => .error e
        | .ok ar =>
          .ok (mkValueLines args vd i
            (auto_unit (pyIntOfRat (rr * (to_bit : ℚ))) ++ unit)
            (auto_unit (pyIntOfRat (sr * (to_bit : ℚ))) ++ unit)
            (auto_unit (pyIntOfRat (ar * (to_bit : ℚ))) ++ unit))
  else .ok []

/-- One iteration of the interface loop in the network plugin's
`msg_curse`: skip interfaces whose stat has `is_up` present and false
(issue 765) — before any cell is emitted and without consulting any
configuration flag; skip interfaces all of whose hide-zero fields are
hidden in the views; otherwise emit the new line, the (truncated,
width-formatted) name cell, the MAC cell, and the value cells. -/
def netInterfaceCells (args : NetArgs) (vh : String → String → Bool)
    (vd : String → String → Option String) (nmw : Int) (i : NetStat) :
    Except PyExn (List Cell) :=
  if i.is_up = some false then .ok []
  else if hide_zero_fields.all (fun f => vh i.interface_name f) then .ok []
  else
    match pyFormatWidth (truncIfName (ifDisplayName i) nmw) nmw with
    | .error e => .error e
    | .ok nameMsg =>
      match netValueCells args vd i with
      | .error e => .error e
      | .ok values =>
        .ok ([Cell.newline,
              Cell.line nameMsg none none none,
              Cell.line (" MAC: " ++ (i.mac_address.getD "Unknown")) none none none]
          ++ values)

/-- The interface loop of `msg_curse` over the (already sorted) stats list;
sorting by `sorted_stats()` is framework code, so the list parameter stands
for the iteration order. -/
def netRows (args : NetArgs) (vh : String → String → Bool)
    (vd : String → String → Option String) (nmw : Int) :
    List NetStat → Except PyExn (List Cell)
  | [] => .ok []
  | i :: rest =>
    match netInterfaceCells args vh vd nmw i with
    | .error e => .error e
    | .ok cells =>
      match netRows args vh vd nmw rest with
      | .error e => .error e
      | .ok tail => .ok (cells ++ tail)

/-- The header cells of the network `msg_curse` after the NETWORK title:
column captions chosen from `--network-cumul` and `--network-sum`. -/
def netHeaderCaptions (args : NetArgs) : List Cell :=
  if args.network_cumul then
    if args.network_sum then [Cell.line (pyFormatRight "Rx+Tx" 14) none none none]
    else [Cell.line (pyFormatRight "Rx" 7) none none none,
          Cell.line (pyFormatRight "Tx" 7) none none none]
  else
    if args.network_sum then [Cell.line (pyFormatRight "Rx+Tx/s" 14) none none none]
    else [Cell.line (pyFormatRight "Rx/s" 7) none none none,
          Cell.line (pyFormatRight "Tx/s" 7) none none none]

/-- `PluginModel.msg_curse` of the network plugin: early return on empty
stats or a disabled plugin; early return (empty message) when `max_width`
is falsy; otherwise `name_max_width = max_width - 12`, the formatted
NETWORK title, the column captions and the interface rows. The `cfg`
parameter carries the configuration flags the method can reach through
`self`; none of them is read here. -/
def net_msg_curse (cfg : NetConfig) (args : NetArgs)
    (vh : String → String → Bool) (vd : String → String → Option String)
    (stats : List NetStat) (disabled : Bool) (max_width : Option Int) :
    Except PyExn (List Cell) :=
  if stats.isEmpty || disabled then .ok []
  else if pyTruthy max_width then
    let nmw : Int := (max_width.getD 0) - 12
    match pyFormatWidth "NETWORK" nmw with
    | .error e => .error e
    | .ok title =>
      match netRows args vh vd nmw stats with
      | .error e => .error e
      | .ok rows =>
        .ok (Cell.line title (some "TITLE") none none :: netHeaderCaptions args ++ rows)
  else .ok []

/-- A concrete stat for a down interface, used by the C10 witness. -/
def downStat : NetStat :=
  { interface_name := "eth1", «alias» := none, mac_address := some "cc:dd",
    is_up := some false, bytes_recv := some 1, bytes_sent := 2, bytes_all := 3,
    speed := some 0, bytes_recv_rate_per_sec := none,
    bytes_sent_rate_per_sec := none, bytes_all_rate_per_sec := none }

/-- Concrete arguments for the C10 witness. -/
def plainArgs : NetArgs :=
  { network_cumul := false, network_sum := false, byte := false }

/-- Concrete configuration for the C10 witness. -/
def plainConfig : NetConfig :=
  { hide_zero := false, hide_no_up := false, hide_no_ip := false }

/- ---------------------------------------------------------- -/
/- Claims                                                     -/
/- ---------------------------------------------------------- -/

/-- C1 (counterexample): the claim that every failure of the diagnostic
tool invocation yields no data does not hold on the code — with the tool
binary not installed, `GlancesGrabNVMe.get` raises FileNotFoundError (only
CalledProcessError is caught), and with a matched labeled line whose token
at position -2 is not numeric, `int` raises ValueError, which also
propagates. -/
theorem nvme_get_not_installed_raises :
    GlancesGrabNVMe.get ToolResult.notInstalled = Except.error PyExn.fileNotFoundError ∧
    GlancesGrabNVMe.get (ToolResult.ok "Temperature: very warm") = Except.error PyExn.valueError := by
  exact ⟨rfl, by decide⟩

/-- C1 (amended): only the non-zero-exit failure of the diagnostic tool is
absorbed by `GlancesGrabNVMe.get` (the empty dict is returned, hence no
data for this tick); a missing tool binary raises FileNotFoundError, and a
matched labeled line without a numeric token at the expected position
raises ValueError, and both propagate out of the sampler. -/
theorem nvme_get_failure_modes (code : Int) :
    GlancesGrabNVMe.get (ToolResult.nonZeroExit code) = Except.ok emptyNvme ∧
    GlancesGrabNVMe.get ToolResult.notInstalled = Except.error PyExn.fileNotFoundError ∧
    GlancesGrabNVMe.get (ToolResult.ok "Temperature: very warm") = Except.error PyExn.valueError := by
  exact ⟨rfl, rfl, by decide⟩

/-- C2: for non-negative counter pairs with previous ≤ current and positive
elapsed time, `compute_rate` returns exactly (current − previous) /
elapsed_seconds, and the three fields of `fields_description` marked
`rate: True` are exactly the ones deriving a `_rate_per_sec` sibling. -/
theorem compute_rate_exact (prev curr : Sample) (k : String) (p c : Int)
    (elapsed : ℚ) (hp : prev.counter k = some p) (hc : curr.counter k = some c)
    (hnn : 0 ≤ p) (hpc : p ≤ c)
    (he : curr.timestamp - prev.timestamp = elapsed) (hpos : 0 < elapsed) :
    compute_rate prev curr k = some (((c : ℚ) - (p : ℚ)) / elapsed) ∧
    rate_per_sec_fields =
      ["bytes_recv_rate_per_sec", "bytes_sent_rate_per_sec", "bytes_all_rate_per_sec"] := by
  constructor
  · unfold compute_rate
    rw [hp, hc, he]
    simp only []
    rw [if_neg]
    · push_cast
      ring_nf
    · push_neg
      constructor
      · linarith
      · omega
  · rfl

/-- C2 (witness): the spec scenario — previous bytes_recv 1000 at t = 0,
current 1500 at t = 1 s — yields a rate of exactly 500 B/s. -/
theorem compute_rate_exact_witness :
    compute_rate { source_id := "eth0", counters := [("bytes_recv", 1000)], timestamp := 0 }
        { source_id := "eth0", counters := [("bytes_recv", 1500)], timestamp := 1 }
        "bytes_recv" = some (((1500 : ℚ) - (1000 : ℚ)) / 1) ∧
    rate_per_sec_fields =
      ["bytes_recv_rate_per_sec", "bytes_sent_rate_per_sec", "bytes_all_rate_per_sec"] :=
  compute_rate_exact _ _ _ 1000 1500 1 rfl rfl (by norm_num) (by norm_num)
    (by norm_num) (by norm_num)

/-- C3: for an explicitly configured threshold set with careful_bound <
warning_bound < critical_bound, `classify` returns the severity of the
highest bound the value is greater than or equal to (inclusive bounds):
it is critical exactly when value ≥ critical_bound (in particular at
value = critical_bound), warning exactly on [warning_bound,
critical_bound), careful exactly on [careful_bound, warning_bound), and
default exactly below careful_bound. -/
theorem classify_highest_bound (c w cr v : ℚ) (hcw : c < w) (hwc : w < cr) :
    (classify v c w cr = Severity.critical ↔ cr ≤ v) ∧
    (classify v c w cr = Severity.warning ↔ w ≤ v ∧ v < cr) ∧
    (classify v c w cr = Severity.careful ↔ c ≤ v ∧ v < w) ∧
    (classify v c w cr = Severity.default ↔ v < c) ∧
    classify cr c w cr = Severity.critical := by
  unfold classify
  refine ⟨?_, ?_, ?_, ?_, ?_⟩
  · split_ifs with h1 h2 h3 <;> simp <;> (try constructor) <;> intros <;> linarith
  · split_ifs with h1 h2 h3 <;> simp <;> (try constructor) <;> intros <;> linarith
  · split_ifs with h1 h2 h3 <;> simp <;> (try constructor) <;> intros <;> linarith
  · split_ifs with h1 h2 h3 <;> simp <;> (try constructor) <;> intros <;> linarith
  · rw [if_pos le_rfl]

/-- C3 (witness): with bounds 50 < 70 < 90 and value 80 the
characterization holds concretely (value 80 classifies as warning). -/
theorem classify_highest_bound_witness :
    (classify 80 50 70 90 = Severity.critical ↔ (90 : ℚ) ≤ 80) ∧
    (classify 80 50 70 90 = Severity.warning ↔ (70 : ℚ) ≤ 80 ∧ (80 : ℚ) < 90) ∧
    (classify 80 50 70 90 = Severity.careful ↔ (50 : ℚ) ≤ 80 ∧ (80 : ℚ) < 70) ∧
    (classify 80 50 70 90 = Severity.default ↔ (80 : ℚ) < 50) ∧
    classify 90 50 70 90 = Severity.critical :=
  classify_highest_bound 50 70 90 80 (by norm_num) (by norm_num)

/-- C4: in the network plugin's `update_views` dispatch, an interface whose
explicit per-interface threshold lookup yielded DEFAULT and whose stat has
a nonzero `speed` field gets its severity recomputed by classifying the
bit rate against maximum = link speed; with the `speed` key absent or
zero, the decoration stays DEFAULT. -/
theorem network_alert_speed_fallback (bps s : Int) (hs : s ≠ 0) :
    decorate_bitrate Severity.default (some s) bps = get_alert_maximum (bps : ℚ) (s : ℚ) ∧
    decorate_bitrate Severity.default none bps = Severity.default ∧
    decorate_bitrate Severity.default (some 0) bps = Severity.default := by
  unfold decorate_bitrate
  refine ⟨?_, rfl, ?_⟩ <;> simp [hs]

/-- C4 (witness): with a DEFAULT explicit lookup, a bit rate of 95 against
a link speed of 100 is re-classified by the percentage-of-maximum
fallback, while an absent or zero speed leaves the decoration DEFAULT. -/
theorem network_alert_speed_fallback_witness :
    decorate_bitrate Severity.default (some 100) 95 = get_alert_maximum (95 : ℚ) (100 : ℚ) ∧
    decorate_bitrate Severity.default none 95 = Severity.default ∧
    decorate_bitrate Severity.default (some 0) 95 = Severity.default :=
  network_alert_speed_fallback 95 100 (by decide)

/-- C5 (counterexample): the link-speed conversion of `update_local` does
not multiply megabits per second by 1,000,000 — a 1 Mbps link converts to
1048576 bits per second, not 1,000,000. -/
theorem speed_conversion_not_million :
    convert_speed 1 = 1048576 ∧ convert_speed 1 ≠ 1 * 1000000 := by
  decide

/-- C5 (amended): the link-speed conversion multiplies by 1048576 =
1024 × 1024, a base-1024 factor, and this is the value stored in the
`speed` field of every stat built by `update_local`. -/
theorem speed_conversion_base1024 (s : Int) (ha : String → Option String)
    (r : RawInterface) (st : RawNetStatus) :
    convert_speed s = s * 1024 * 1024 ∧
    (buildStat ha r st).speed = some (convert_speed st.speed) := by
  constructor
  · unfold convert_speed
    ring
  · rfl

/-- C6: when the diagnostic tool exits non-zero, `GlancesGrabNVMe.get`
returns the empty dict, the NVMe plugin's `update` turns that into the
empty stats list, and `msg_curse` on an empty stats list returns the empty
cell list — the row is omitted with no exception raised anywhere on the
path. -/
theorem nvme_nonzero_exit_empty_pipeline (code : Int) (disabled : Bool)
    (max_width : Option Int) :
    GlancesGrabNVMe.get (ToolResult.nonZeroExit code) = Except.ok emptyNvme ∧
    nvme_update emptyNvme = Except.ok [] ∧
    nvme_msg_curse [] disabled max_width = Except.ok [] :=
  ⟨rfl, rfl, rfl⟩

/-- C7 (counterexample): with max_width = 13 the name budget is
name_max_width = 13 − 12 = 1, and the truncation of a 2-character name
produces the 3-character label (underscore followed by the whole name)
rather than the claimed 1-character suffix-truncation (the slice start
−name_max_width + 1 = 0 selects the entire name). -/
theorem truncation_width_one_counterexample :
    truncIfName "ab" (13 - 12) = "_ab" ∧
    truncIfName "ab" (13 - 12) ≠ "_" ++ lastChars "ab" 0 ∧
    (truncIfName "ab" (13 - 12)).toList.length ≠ 1 := by
  decide

/-- Helper for the truncation proof: `s[a:]` for the negative start index
a = 1 − k keeps exactly the last k − 1 characters once 2 ≤ k ≤ len(s). -/
theorem pySliceFrom_neg (s : String) (k : ℕ) (hk : 2 ≤ k) (hkn : k ≤ s.toList.length) :
    pySliceFrom s (1 - (k : Int)) = String.mk (s.toList.drop (s.toList.length + 1 - k)) := by
  unfold pySliceFrom
  simp only []
  rw [if_pos (by omega : (1 : Int) - (k : Int) < 0)]
  congr 2
  rw [max_eq_left (by omega : (0 : Int) ≤ (s.toList.length : Int) + (1 - (k : Int)))]
  omega

/-- C7 (amended): for a name budget name_max_width = max_width − 12 of at
least 2, every interface name longer than name_max_width is truncated to
an underscore followed by its last name_max_width − 1 characters — exactly
name_max_width characters — and the width-formatting call succeeds,
returning the truncated label unchanged. (At name_max_width = 1 the slice
start −name_max_width + 1 = 0 selects the whole name instead, see the
counterexample.) -/
theorem truncation_suffix_preserving (name : String) (nmw : Int)
    (h2 : 2 ≤ nmw) (hlen : nmw < (name.toList.length : Int)) :
    truncIfName name nmw = "_" ++ lastChars name (nmw - 1).toNat ∧
    ((truncIfName name nmw).toList.length : Int) = nmw ∧
    pyFormatWidth (truncIfName name nmw) nmw = Except.ok (truncIfName name nmw) := by
  obtain ⟨k, rfl⟩ : ∃ k : ℕ, nmw = (k : Int) :=
    ⟨nmw.toNat, (Int.toNat_of_nonneg (by linarith)).symm⟩
  have hk2 : 2 ≤ k := by exact_mod_cast h2
  have hkn : k < name.toList.length := by exact_mod_cast hlen
  have htr : truncIfName name (k : Int) =
      "_" ++ String.mk (name.toList.drop (name.toList.length + 1 - k)) := by
    unfold truncIfName
    rw [if_pos hlen, pySliceFrom_neg name k (by omega) (by omega)]
  have hlast : lastChars name ((k : Int) - 1).toNat =
      String.mk (name.toList.drop (name.toList.length + 1 - k)) := by
    unfold lastChars
    congr 2
    omega
  have hdata : ("_" ++ String.mk (name.toList.drop (name.toList.length + 1 - k))).toList
      = '_' :: name.toList.drop (name.toList.length + 1 - k) := rfl
  have hlength : (truncIfName name (k : Int)).toList.length = k := by
    rw [htr, hdata]
    simp only [List.length_cons, List.length_drop]
    omega
  refine ⟨by rw [htr, hlast], by rw [hlength], ?_⟩
  unfold pyFormatWidth
  rw [if_neg (by omega : ¬ (k : Int) ≤ 0)]
  congr 1
  rw [hlength]
  have h0 : (k : Int).toNat - k = 0 := by omega
  rw [h0, List.replicate_zero]
  cases h : truncIfName name (k : Int) with
  | mk l =>
    show String.mk (l ++ []) = String.mk l
    simp

/-- C7 (witness): with name_max_width = 3 the 6-character name abcdef is
truncated to the 3-character label made of an underscore and its last two
characters, and the formatting call succeeds. -/
theorem truncation_suffix_preserving_witness :
    truncIfName "abcdef" 3 = "_" ++ lastChars "abcdef" ((3 : Int) - 1).toNat ∧
    ((truncIfName "abcdef" 3).toList.length : Int) = 3 ∧
    pyFormatWidth (truncIfName "abcdef" 3) 3 = Except.ok (truncIfName "abcdef" 3) :=
  truncation_suffix_preserving "abcdef" 3 (by decide) (by decide)

/-- C8: with a non-empty stats list and the plugin enabled, calling the
NVMe plugin's `msg_curse` with a falsy max_width (None or 0) raises
UnboundLocalError when formatting the first row — `label_max_width` is
assigned only when max_width is truthy — whereas the network plugin's
`msg_curse` returns an empty cell list in the same situation. -/
theorem nvme_msg_curse_unbound_local (stats : List SensorStat) (mw : Option Int)
    (cfg : NetConfig) (args : NetArgs) (vh : String → String → Bool)
    (vd : String → String → Option String) (netstats : List NetStat) (d : Bool)
    (h : stats ≠ []) (hmw : mw = none ∨ mw = some 0) :
    nvme_msg_curse stats false mw = Except.error PyExn.unboundLocalError ∧
    net_msg_curse cfg args vh vd netstats d mw = Except.ok [] := by
  have hfalsy : pyTruthy mw = false := by
    rcases hmw with rfl | rfl <;> rfl
  constructor
  · unfold nvme_msg_curse
    rw [hfalsy]
    cases stats with
    | nil => exact absurd rfl h
    | cons s rest => simp [nvmeRows]
  · unfold net_msg_curse
    cases hne : netstats.isEmpty || d with
    | true => simp
    | false => simp [hfalsy]

/-- C8 (witness): a one-row stats list with max_width = None raises
UnboundLocalError from the NVMe `msg_curse`, while the network `msg_curse`
returns no cells. -/
theorem nvme_msg_curse_unbound_local_witness :
    nvme_msg_curse [{ label := "NVMe Temp", value := 45, unit := "C" }] false none
      = Except.error PyExn.unboundLocalError ∧
    net_msg_curse { hide_zero := false, hide_no_up := false, hide_no_ip := false }
      { network_cumul := false, network_sum := false, byte := false }
      (fun _ _ => false) (fun _ _ => none) [] false none = Except.ok [] :=
  nvme_msg_curse_unbound_local _ none _ _ _ _ [] false (by decide) (Or.inl rfl)

/-- C9: every stat in the list produced by the network plugin's
`update_local` carries a `bytes_recv` key and satisfies
bytes_all = bytes_sent + bytes_recv, the invariant established on line
`stat[bytes_all] = stat[bytes_sent] + stat[bytes_recv]` before the stat is
appended. -/
theorem update_local_bytes_all_invariant (isd : String → Bool)
    (ha : String → Option String) (rs : List RawInterface) (s : NetStat)
    (hs : s ∈ update_local isd ha rs) :
    s.bytes_recv.isSome = true ∧ s.bytes_all = s.bytes_sent + s.bytes_recv.getD 0 := by
  induction rs with
  | nil => cases hs
  | cons r rest ih =>
    unfold update_local at hs
    cases hd : isd r.name with
    | false =>
      rw [hd] at hs
      simp only [if_neg Bool.false_ne_true] at hs
      exact ih hs
    | true =>
      rw [hd] at hs
      simp only [if_pos rfl] at hs
      cases hst : r.status with
      | none =>
        rw [hst] at hs
        exact ih hs
      | some st =>
        rw [hst] at hs
        rcases List.mem_cons.mp hs with rfl | hmem
        · exact ⟨rfl, rfl⟩
        · exact ih hmem

/-- C9 (witness): a concrete interface with 200 bytes sent and 300 bytes
received yields a stat with bytes_all = 500 = bytes_sent + bytes_recv. -/
theorem update_local_bytes_all_invariant_witness :
    (buildStat (fun _ => none)
        { name := "eth0", io := { bytes_sent := 200, bytes_recv := 300 },
          status := some { isup := true, speed := 100 }, mac := some "aa:bb" }
        { isup := true, speed := 100 }).bytes_recv.isSome = true ∧
    (buildStat (fun _ => none)
        { name := "eth0", io := { bytes_sent := 200, bytes_recv := 300 },
          status := some { isup := true, speed := 100 }, mac := some "aa:bb" }
        { isup := true, speed := 100 }).bytes_all =
      (buildStat (fun _ => none)
        { name := "eth0", io := { bytes_sent := 200, bytes_recv := 300 },
          status := some { isup := true, speed := 100 }, mac := some "aa:bb" }
        { isup := true, speed := 100 }).bytes_sent +
      (buildStat (fun _ => none)
        { name := "eth0", io := { bytes_sent := 200, bytes_recv := 300 },
          status := some { isup := true, speed := 100 }, mac := some "aa:bb" }
        { isup := true, speed := 100 }).bytes_recv.getD 0 :=
  update_local_bytes_all_invariant (fun _ => true) (fun _ => none)
    [{ name := "eth0", io := { bytes_sent := 200, bytes_recv := 300 },
       status := some { isup := true, speed := 100 }, mac := some "aa:bb" }]
    _ (List.mem_singleton.mpr rfl)

/-- C10: in the network plugin's `msg_curse`, an interface whose stat has
an `is_up` key with value False is skipped before any cell is emitted (no
label, MAC or value cell), its removal from the iteration leaves the rows
unchanged, and the output does not depend on the `hide_no_up`
configuration flag, which `msg_curse` never reads. -/
theorem msg_curse_skips_down_interfaces (i : NetStat) (args : NetArgs)
    (vh : String → String → Bool) (vd : String → String → Option String)
    (nmw : Int) (pre post : List NetStat) (cfg : NetConfig) (b : Bool)
    (stats : List NetStat) (d : Bool) (mw : Option Int)
    (hup : i.is_up = some false) :
    netInterfaceCells args vh vd nmw i = Except.ok [] ∧
    netRows args vh vd nmw (pre ++ i :: post) = netRows args vh vd nmw (pre ++ post) ∧
    net_msg_curse { cfg with hide_no_up := b } args vh vd stats d mw
      = net_msg_curse cfg args vh vd stats d mw := by
  have hskip : netInterfaceCells args vh vd nmw i = Except.ok [] := by
    unfold netInterfaceCells
    rw [if_pos hup]
  refine ⟨hskip, ?_, rfl⟩
  induction pre with
  | nil =>
    cases h : netRows args vh vd nmw post with
    | error e => simp [netRows, hskip, h]
    | ok tail => simp [netRows, hskip, h]
  | cons p rest ih =>
    show netRows args vh vd nmw (p :: (rest ++ i :: post))
        = netRows args vh vd nmw (p :: (rest ++ post))
    unfold netRows
    rw [ih]

/-- C10 (witness): a concrete down interface is skipped (no cells), its
removal leaves the rows over a one-interface list unchanged, and flipping
`hide_no_up` leaves the message unchanged. -/
theorem msg_curse_skips_down_interfaces_witness :
    netInterfaceCells plainArgs (fun _ _ => false) (fun _ _ => none) 10 downStat
      = Except.ok [] ∧
    netRows plainArgs (fun _ _ => false) (fun _ _ => none) 10 ([] ++ downStat :: [])
      = netRows plainArgs (fun _ _ => false) (fun _ _ => none) 10 ([] ++ []) ∧
    net_msg_curse { plainConfig with hide_no_up := true } plainArgs
        (fun _ _ => false) (fun _ _ => none) [] false none
      = net_msg_curse plainConfig plainArgs
        (fun _ _ => false) (fun _ _ => none) [] false none :=
  msg_curse_skips_down_interfaces downStat plainArgs _ _ 10 [] [] plainConfig true
    [] false none rfl
